import Mathlib

/-
Verification of the beamz9000 diagram layout and rendering-geometry engine.

This file is a shallow embedding, in Lean 4, of the core data model and
algorithms of the beamz9000 repository (model.py, beam_plotter.py,
graphics.py, svg_to_path.py).  Python real numbers are modelled by the
rationals, Python `None` by `Option`, and Python exceptions by `Except
String` results whose error strings name the exception raised by the
corresponding Python code path.  Each definition mirrors one Python
function or dataclass; comments note the source location and any Python
semantics (dataclass equality, unbound locals, `next` on an exhausted
generator, numpy reshape) that the embedding makes explicit.
-/

namespace Beamz9000

/-- Decidable equality for `Except` results, so that concrete runs of the
embedded functions can be checked by `decide`. -/
instance {ε α : Type} [DecidableEq ε] [DecidableEq α] : DecidableEq (Except ε α) :=
  fun x y =>
    match x, y with
    | .error u, .error v =>
        if h : u = v then isTrue (by rw [h])
        else isFalse (fun hh => h (by cases hh; rfl))
    | .error _, .ok _ => isFalse (fun hh => by cases hh)
    | .ok _, .error _ => isFalse (fun hh => by cases hh)
    | .ok u, .ok v =>
        if h : u = v then isTrue (by rw [h])
        else isFalse (fun hh => h (by cases hh; rfl))

/-! ## Data model (model.py)

`Label`, `Node`, `Support`, `Joint`, `Load`, `Beam` dataclasses.  The
`text_properties` mapping of a `Label` is display-only and never inspected
by the engine; it is modelled by an `Option Unit` placeholder. -/

structure Label where
  text : Option String := none
  x_offset : Option ℚ := none
  y_offset : Option ℚ := none
  text_properties : Option Unit := none
  deriving DecidableEq, Repr

/-- `Label(text)` for a plain string label, as produced by the dataclass
post-construction coercions in model.py. -/
def Label.ofText (s : String) : Label := { text := some s }

/-- A `Node` after `Node.__post_init__` has run: its `label` field is always
a `Label` (a raw `str` label has been wrapped, a `None` label replaced by
an empty `Label()`). -/
structure Node where
  x : ℚ
  label : Label
  deriving DecidableEq, Repr

/-- `Node(x)` with no label: `__post_init__` sets `label = Label()`. -/
def mkNode (x : ℚ) : Node := ⟨x, {}⟩

/-- `Node(x, "s")`: `__post_init__` wraps the string into a `Label`. -/
def mkNodeStr (x : ℚ) (s : String) : Node := ⟨x, Label.ofText s⟩

/-- A support/joint/load location as it may appear in the model:
a `Node`, a raw label string, or a raw number (model.py type unions). -/
inductive Loc where
  | node (n : Node)
  | str (s : String)
  | num (q : ℚ)
  deriving DecidableEq, Repr

/-- `Support` dataclass (model.py).  `fixity` is an `IntEnum`, modelled by
its integer value. -/
structure Support where
  location : Loc
  fixity : ℤ
  label : Label := {}
  deriving DecidableEq, Repr

/-- `Joint` dataclass (model.py). -/
structure Joint where
  location : Loc
  fixity : ℤ
  label : Label := {}
  deriving DecidableEq, Repr

/-- `Load` dataclass (model.py), after `__post_init__` has coerced `label`
to a `Label`. -/
structure Load where
  magnitude : ℚ
  start_location : Loc
  end_location : Option Loc := none
  end_magnitude : Option ℚ := none
  moment : Bool := false
  alpha : ℚ := 0
  label : Label := {}
  deriving DecidableEq, Repr

/-! ## Load classification and scaling (beam_plotter.py) -/

/-- `classify_load` (beam_plotter.py lines 258-269): `moment` flag first,
then presence of `end_location`, else point. -/
def classify_load (load : Load) : String :=
  if load.moment then "POINT_MOMENT"
  else if load.end_location.isSome then "DISTRIBUTED"
  else "POINT"

/-- The dictionary `{"POINT": _, "DISTRIBUTED": _, "POINT_MOMENT": _}` used
by `max_load_magnitudes` and `get_scaled_magnitude`. -/
structure MaxMags where
  point : ℚ
  distributed : ℚ
  point_moment : ℚ
  deriving DecidableEq, Repr

/-- Python `dict.get` on the three-key magnitude dictionary. -/
def MaxMags.getKey? (m : MaxMags) (k : String) : Option ℚ :=
  if k = "POINT" then some m.point
  else if k = "DISTRIBUTED" then some m.distributed
  else if k = "POINT_MOMENT" then some m.point_moment
  else none

/-- Python `dict[k] = v` on the three-key magnitude dictionary.  The keys
written by `max_load_magnitudes` always come from `classify_load`, so the
fall-through branch (which in Python would add a fresh key) is unreachable
and leaves the table unchanged. -/
def MaxMags.setKey (m : MaxMags) (k : String) (v : ℚ) : MaxMags :=
  if k = "POINT" then { m with point := v }
  else if k = "DISTRIBUTED" then { m with distributed := v }
  else if k = "POINT_MOMENT" then { m with point_moment := v }
  else m

/-- `max_load_magnitudes` (beam_plotter.py lines 272-288).  The source
reads `load.start_magnitude` inside the `end_magnitude is not None` branch,
but the `Load` dataclass has no `start_magnitude` field (the field is
`magnitude`), so Python raises `AttributeError` the moment a load with a
present `end_magnitude` is processed.  The embedding makes that explicit. -/
def max_load_magnitudes (loads : List Load) : Except String MaxMags :=
  loads.foldlM
    (fun magnitudes load =>
      let load_type := classify_load load
      match magnitudes.getKey? load_type with
      | none =>
          -- dict.get returned None; the later < comparison would raise.
          -- Unreachable: classify_load only produces the three keys.
          .error "TypeError: NoneType comparison"
      | some comparison_magnitude =>
          let scaling_magnitude := load.magnitude
          match load.end_magnitude with
          | some _ =>
              -- abs(load.end_magnitude) > abs(load.start_magnitude)
              .error "AttributeError: Load object has no attribute start_magnitude"
          | none =>
              if comparison_magnitude < |scaling_magnitude| then
                .ok (magnitudes.setKey load_type |scaling_magnitude|)
              else
                .ok magnitudes)
    ⟨0, 0, 0⟩

/-- Result of `get_scaled_magnitude`: a single scaled depth, or a
(start, end) pair for a distributed load. -/
inductive ScaledMag where
  | single (d : ℚ)
  | pair (s e : ℚ)
  deriving DecidableEq, Repr

/-- `get_scaled_magnitude` (beam_plotter.py lines 291-323).  Faithful to
the source, including:
* `ZeroDivisionError` when the category maximum is zero (Python float
  division by zero);
* a single depth, not a pair, for a distributed load whose
  `end_magnitude` is absent (the `end_scaling_load is not None` guard);
* the `POINT_MOMENT` branch uses the local `scaling_factor` that no
  branch executed before it ever assigned, so Python raises
  `UnboundLocalError` there.
The final fall-through (Python would return `None`) is unreachable since
`classify_load` only returns the three category strings. -/
def get_scaled_magnitude (load : Load) (max_magnitudes : MaxMags) (max_depth : ℚ) :
    Except String ScaledMag :=
  let load_type := classify_load load
  if load_type = "POINT" then
    match max_magnitudes.getKey? load_type with
    | none => .error "KeyError: POINT"
    | some mx =>
        let scaling_load := |load.magnitude|
        if mx = 0 then .error "ZeroDivisionError: float division by zero"
        else
          let scaling_factor := |scaling_load / mx|
          .ok (.single (scaling_factor * max_depth))
  else if load_type = "DISTRIBUTED" then
    match max_magnitudes.getKey? load_type with
    | none => .error "KeyError: DISTRIBUTED"
    | some mx =>
        let start_scaling_load := |load.magnitude|
        let end_scaling_load := load.end_magnitude.map (fun m => |m|)
        if mx = 0 then .error "ZeroDivisionError: float division by zero"
        else
          let start_scaling_factor := |start_scaling_load / mx|
          let start_load_depth := start_scaling_factor * max_depth
          match end_scaling_load with
          | some esl => .ok (.pair start_load_depth (|esl / mx| * max_depth))
          | none => .ok (.single start_load_depth)
  else if load_type = "POINT_MOMENT" then
    .error "UnboundLocalError: local variable scaling_factor referenced before assignment"
  else
    .error "unreachable"

/-! ## Beam construction and geometry (model.py)

`Beam.__post_init__` (model.py lines 247-282), `_lookup_node` (371-377),
`Beam.get_spans` (288-302) and `Beam.length` (304-308). -/

/-- An entry of the `nodes` (or `dimensions`) list handed to the `Beam`
constructor: `list[Union[Node, Number, str]]`. -/
inductive NodeInput where
  | node (n : Node)
  | num (q : ℚ)
  | str (s : String)
  deriving DecidableEq, Repr

/-- A `Beam` as constructed (its raw dataclass fields, before
`__post_init__` runs).  `supports`, `loads`, `joints` and `dimensions`
default to `None` in the source. -/
structure BeamInput where
  nodes : List NodeInput
  supports : Option (List Support) := none
  loads : Option (List Load) := none
  joints : Option (List Joint) := none
  depth : Option ℚ := none
  dimensions : Option (List NodeInput) := none
  deriving DecidableEq, Repr

/-- A `Beam` after `__post_init__` has succeeded. -/
structure Beam where
  nodes : List Node
  supports : List Support
  loads : Option (List Load)
  joints : Option (List Joint)
  depth : ℚ
  dimensions : List Node
  deriving DecidableEq, Repr

/-- The node-coercion loop of `Beam.__post_init__` (model.py lines
248-257): a number becomes a `Node` labelled with the text of the number
(`Label(f"...")`, modelled by `toString`); an entry with a `label`
attribute (a `Node` - whose label `Node.__post_init__` already coerced to
a `Label`) is kept; anything else (a plain `str` has no `label`
attribute) falls through both branches and is dropped. -/
def processNodes : List NodeInput → List Node
  | [] => []
  | .num q :: rest => ⟨q, Label.ofText (toString q)⟩ :: processNodes rest
  | .node n :: rest => n :: processNodes rest
  | .str _ :: rest => processNodes rest

/-- Python `==` between a `Node.label` (always a `Label` dataclass after
construction) and the `Support` object that `Beam.__post_init__` passes to
`_lookup_node`: dataclass `__eq__` returns `NotImplemented` for a
different class on both sides, so `==` falls back to identity and is
`False`. -/
def label_eq_support (_ : Label) (_ : Support) : Bool := false

/-- Python `==` between a `Node.label` (a `Label` dataclass) and a plain
label string: `Label.__eq__(str)` is `NotImplemented`, `str.__eq__(Label)`
too, so `==` is `False` - even when the label text matches the string. -/
def label_eq_str (_ : Label) (_ : String) : Bool := false

/-- `_lookup_node` (model.py lines 371-377):
`next((node for node in nodes if node.label == node_label)) or None`.
`next` is called without a default, so an exhausted generator raises
`StopIteration`; the documented `None` return never happens (a found
`Node` is truthy, so `or None` keeps it). -/
def lookup_node {α : Type} (eqFn : Label → α → Bool) (node_label : α)
    (nodes : List Node) : Except String Node :=
  match nodes.find? (fun node => eqFn node.label node_label) with
  | some node => .ok node
  | none => .error "StopIteration"

/-- The support-resolution loop of `Beam.__post_init__` (lines 259-265):
a string location triggers `_lookup_node(support, self.nodes)` - note the
source passes the whole `Support` object, not `support.location` - and on
success rebinds `support.location` to the found node.  The
`if node is None: raise ValueError(...)` arm is unreachable, because
`_lookup_node` either returns a node or raises `StopIteration`. -/
def processSupport (nodes : List Node) (support : Support) : Except String Support :=
  match support.location with
  | .str _ =>
      (lookup_node label_eq_support support nodes).map
        (fun node => { support with location := .node node })
  | _ => .ok support

/-- The dimension-resolution loop of `Beam.__post_init__` (lines 267-280):
a `Node` is kept, a number becomes `Node(loc)`, a string is resolved with
`_lookup_node(loc, self.nodes)` (again the `None` check and its
`ValueError` are unreachable). -/
def processDimension (nodes : List Node) (loc : NodeInput) : Except String Node :=
  match loc with
  | .node n => .ok n
  | .num q => .ok (mkNode q)
  | .str s => lookup_node label_eq_str s nodes

/-- `Beam.__post_init__` (model.py lines 247-282).  Iterating a `None`
`supports` or `dimensions` list raises `TypeError` in Python; a `None`
`depth` becomes 0. -/
def beam_post_init (b : BeamInput) : Except String Beam := do
  let new_nodes := processNodes b.nodes
  let supports ← match b.supports with
    | none => Except.error "TypeError: NoneType object is not iterable"
    | some ss => ss.mapM (processSupport new_nodes)
  let dimensions ← match b.dimensions with
    | none => Except.error "TypeError: NoneType object is not iterable"
    | some ds => ds.mapM (processDimension new_nodes)
  let depth := match b.depth with
    | none => (0 : ℚ)
    | some d => d
  .ok ⟨new_nodes, supports, b.loads, b.joints, depth, dimensions⟩

/-- The loop body of `Beam.get_spans` from the second node on: each node
contributes `abs(node.x - prev_loc)` and becomes the new `prev_loc`. -/
def get_spans_aux (prev_loc : ℚ) : List Node → List ℚ
  | [] => []
  | node :: rest => |node.x - prev_loc| :: get_spans_aux node.x rest

/-- `Beam.get_spans` (model.py lines 288-302): the first node only seeds
`prev_loc`; every later node appends `abs(node.x - prev_loc)`. -/
def Beam.get_spans (b : Beam) : List ℚ :=
  match b.nodes with
  | [] => []
  | node :: rest => get_spans_aux node.x rest

/-- `Beam.length` (model.py lines 304-308): the sum of the spans. -/
def Beam.length (b : Beam) : ℚ := b.get_spans.sum

/-! ## Symbol placement geometry (graphics.py)

Affine transforms (matplotlib `Affine2D`, matrix layout
[[a, c, e], [b, d, f], [0, 0, 1]]), `PathPatch` with its settable
transform, `get_anchor_point` and `get_svg_translation_transform`. -/

structure Affine where
  a : ℚ
  b : ℚ
  c : ℚ
  d : ℚ
  e : ℚ
  f : ℚ
  deriving DecidableEq, Repr

/-- Apply the affine map to a point. -/
def Affine.apply (t : Affine) (p : ℚ × ℚ) : ℚ × ℚ :=
  (t.a * p.1 + t.c * p.2 + t.e, t.b * p.1 + t.d * p.2 + t.f)

/-- matplotlib transform composition `t1 + t2`: apply `t1`, then `t2`
(matrix product of `t2` with `t1`). -/
def Affine.comp (t1 t2 : Affine) : Affine :=
  ⟨t2.a * t1.a + t2.c * t1.b,
   t2.b * t1.a + t2.d * t1.b,
   t2.a * t1.c + t2.c * t1.d,
   t2.b * t1.c + t2.d * t1.d,
   t2.a * t1.e + t2.c * t1.f + t2.e,
   t2.b * t1.e + t2.d * t1.f + t2.f⟩

/-- The identity transform (a fresh `Affine2D()`). -/
def Affine.ident : Affine := ⟨1, 0, 0, 1, 0, 0⟩

/-- A pure translation `Affine2D().translate(tx, ty)`. -/
def Affine.translation (tx ty : ℚ) : Affine := ⟨1, 0, 0, 1, tx, ty⟩

/-- `get_svg_flip_transform` (graphics.py lines 57-65):
`Affine2D().scale(1, -1)`. -/
def get_svg_flip_transform : Affine := ⟨1, 0, 0, -1, 0, 0⟩

/-- `get_scale_transform` (graphics.py lines 68-74):
`Affine2D().scale(scale_factor)`. -/
def get_scale_transform (scale_factor : ℚ) : Affine :=
  ⟨scale_factor, 0, 0, scale_factor, 0, 0⟩

/-- matplotlib `ScaledTranslation(tx, ty, trans)`: translation by the
point `(tx, ty)` carried through `trans` (here `ax.transData`). -/
def scaled_translation (tx ty : ℚ) (trans : Affine) : Affine :=
  Affine.translation (trans.apply (tx, ty)).1 (trans.apply (tx, ty)).2

/-- A matplotlib `PathPatch`: its path's vertices and the patch transform
last installed with `set_transform`. -/
structure PathPatch where
  vertices : List (ℚ × ℚ)
  transform : Affine
  deriving DecidableEq, Repr

/-- `patch.get_extents()`: the axis-aligned bounding box
(xmin, ymin, xmax, ymax) of the transform-applied vertices.  The engine
never builds an empty outline; the empty case gets a degenerate zero
box. -/
def PathPatch.get_extents (p : PathPatch) : ℚ × ℚ × ℚ × ℚ :=
  match p.vertices.map p.transform.apply with
  | [] => (0, 0, 0, 0)
  | v :: vs =>
      vs.foldl
        (fun acc w =>
          (min acc.1 w.1, min acc.2.1 w.2, max acc.2.2.1 w.1, max acc.2.2.2 w.2))
        (v.1, v.2, v.1, v.2)

/-- Python `str.split()` with no argument: maximal runs of non-whitespace
characters. -/
def pySplitWsAux (cur : List Char) : List Char → List (List Char)
  | [] => if cur.isEmpty then [] else [cur.reverse]
  | ch :: rest =>
      if ch.isWhitespace then
        if cur.isEmpty then pySplitWsAux [] rest
        else cur.reverse :: pySplitWsAux [] rest
      else pySplitWsAux (ch :: cur) rest

/-- Python `location.split()` as used by `get_anchor_point`. -/
def pySplitWs (s : String) : List (List Char) := pySplitWsAux [] s.toList

/-- Python substring membership `pat in s` on char lists. -/
def listContainsAux (pat : List Char) : List Char → Bool
  | [] => pat.isEmpty
  | c :: rest => pat.isPrefixOf (c :: rest) || listContainsAux pat rest

/-- Python `pat in s` for strings. -/
def str_in (pat s : String) : Bool := listContainsAux pat.toList s.toList

/-- Python `location.lower()`, modelled at the character-list level. -/
def pyToLower (s : String) : List Char := s.toList.map Char.toLower

/-- Python `pat in loc` against the lowered character list. -/
def str_in_chars (pat : String) (l : List Char) : Bool :=
  listContainsAux pat.toList l

/-- `get_anchor_point` (graphics.py lines 93-123).  Faithful to the
source:
* a token count other than 2 raises the `ValueError` naming the passed
  string (the InvalidAnchor error of the spec);
* `"center"` membership presets both coordinates to the bbox centroid;
* then a single `if right / elif left / elif top / elif bottom` chain
  overrides at most ONE coordinate - so an anchor such as `"top left"`
  stops at the `left` arm, never runs the `top` arm, and the local `y`
  is still unbound when `return x, y` executes, which Python reports as
  `UnboundLocalError` (likewise `x` for e.g. `"top bottom"` or two
  unrecognized tokens).  The unbound locals are modelled by `Option`
  values that start as `none`. -/
def get_anchor_point (path_patch : PathPatch) (location : String) :
    Except String (ℚ × ℚ) :=
  let ext := path_patch.get_extents
  let xmin := ext.1
  let ymin := ext.2.1
  let xmax := ext.2.2.1
  let ymax := ext.2.2.2
  if (pySplitWs location).length ≠ 2 then
    .error ("ValueError: location must be a string containing two words, separated by a space, describing a location relative to a bounding box; "
      ++ location ++ " was passed instead.")
  else
    let loc := pyToLower location
    let xy0 : Option ℚ × Option ℚ :=
      if str_in_chars "center" loc then
        (some ((xmax + xmin) / 2), some ((ymax + ymin) / 2))
      else (none, none)
    let xy1 : Option ℚ × Option ℚ :=
      if str_in_chars "right" loc then (some xmax, xy0.2)
      else if str_in_chars "left" loc then (some xmin, xy0.2)
      else if str_in_chars "top" loc then (xy0.1, some ymax)
      else if str_in_chars "bottom" loc then (xy0.1, some ymin)
      else xy0
    match xy1 with
    | (some x, some y) => .ok (x, y)
    | (none, _) => .error "UnboundLocalError: local variable x referenced before assignment"
    | (some _, none) => .error "UnboundLocalError: local variable y referenced before assignment"

/-- `get_svg_translation_transform` (graphics.py lines 27-54).  The source
first executes `path_patch.set_transform(svg_flip)` - mutating the passed
patch so that the anchor is computed on the flipped bounding box - and
then returns the composition flip + anchor-to-origin + scale +
scaled-translation-to-target.  The embedding returns the pair of the
function's result (or the propagated anchor error) and the final state of
the patch; the mutation persists even when `get_anchor_point` raises. -/
def get_svg_translation_transform (transData : Affine) (path_patch : PathPatch)
    (target : ℚ × ℚ) (anchor_location : String) (scale_factor : ℚ) :
    Except String Affine × PathPatch :=
  let svg_flip := get_svg_flip_transform
  let patch1 : PathPatch := { path_patch with transform := svg_flip }
  match get_anchor_point patch1 anchor_location with
  | .error err => (.error err, patch1)
  | .ok (svg_anchor_x, svg_anchor_y) =>
      let anchor_to_origin := Affine.translation (-svg_anchor_x) (-svg_anchor_y)
      let scale_transform := get_scale_transform scale_factor
      let translate_transform := scaled_translation target.1 target.2 transData
      (.ok (((svg_flip.comp anchor_to_origin).comp scale_transform).comp
          translate_transform),
        patch1)

/-! ## SVG path parsing (svg_to_path.py)

`svg_path_parse` turns one SVG path string into matplotlib `Path` data
(vertex array + code array).  The embedding mirrors the source line by
line: the `" " -> ","` replace, the `re.split("([A-Za-z])", ...)[1:]`
command split, float conversion, the `zip(points[::2], points[1::2])`
pairing (which TRUNCATES an odd trailing coordinate), the relative-command
append of the previous vertex, the `commands[cmd.upper()]` lookup
(`KeyError` on unknown letters), `np.reshape(..., (-1, 2))` (a
`ValueError` on an odd-size flat array), `np.concatenate` (a `ValueError`
on an empty array list) and the matplotlib `Path` length check. -/

/-- matplotlib path codes used by the parser's command table. -/
inductive PathCode where
  | moveto
  | lineto
  | curve3
  | curve4
  | closepoly
  deriving DecidableEq, Repr

/-- `svg_path.replace(" ", ",")`, at the character level. -/
def pyReplaceSpace (s : String) : List Char :=
  s.toList.map (fun c => if c = ' ' then ',' else c)

/-- ASCII letter test, i.e. the regex class `[A-Za-z]`. -/
def isAsciiLetter (c : Char) : Bool :=
  ('A' ≤ c && c ≤ 'Z') || ('a' ≤ c && c ≤ 'z')

/-- `re.split("([A-Za-z])", svg_path)[1:]` followed by
`zip(cmd_values[::2], cmd_values[1::2])`: the text before the first
command letter is dropped by the `[1:]`, and each command letter is paired
with the text that follows it up to the next letter. -/
def splitCmdsAux (cur : Option (Char × List Char)) :
    List Char → List (Char × List Char)
  | [] =>
      match cur with
      | none => []
      | some (c, acc) => [(c, acc.reverse)]
  | ch :: rest =>
      if isAsciiLetter ch then
        match cur with
        | none => splitCmdsAux (some (ch, [])) rest
        | some (c, acc) => (c, acc.reverse) :: splitCmdsAux (some (ch, [])) rest
      else
        match cur with
        | none => splitCmdsAux none rest
        | some (c, acc) => splitCmdsAux (some (c, ch :: acc)) rest

/-- The `(command, following text)` pairs the parser loop iterates over. -/
def splitCmds (s : List Char) : List (Char × List Char) := splitCmdsAux none s

/-- `re.split(r",|\s", values)`: split the value text at every comma or
whitespace character (empty pieces included, as in `re.split`). -/
def splitSepsAux (cur : List Char) : List Char → List (List Char)
  | [] => [cur.reverse]
  | ch :: rest =>
      if ch = ',' || ch.isWhitespace then cur.reverse :: splitSepsAux [] rest
      else splitSepsAux (ch :: cur) rest

/-- The token list after the source's `if value` filter. -/
def filteredTokens (vals : List Char) : List (List Char) :=
  (splitSepsAux [] vals).filter (fun t => ¬ t.isEmpty)

/-- The numeric value of a digit run. -/
def natOfDigits (ds : List Char) : ℕ :=
  ds.foldl (fun a c => 10 * a + (c.toNat - 48)) 0

/-- The longest digit prefix and the rest (`span isDigit`, written out so
it unfolds structurally). -/
def takeDigits : List Char → List Char × List Char
  | [] => ([], [])
  | c :: rest =>
      if c.isDigit then
        let (ds, r) := takeDigits rest
        (c :: ds, r)
      else ([], c :: rest)

/-- Python `float(token)` on a separator-free token: optional sign,
digits with an optional decimal point (at least one digit overall), and
an optional `e`/`E` exponent.  `inf`/`nan` and underscore separators are
never produced by SVG path data and are not modelled.  Returns `none`
exactly when Python raises
`ValueError: could not convert string to float`. -/
def pyFloat? (cs : List Char) : Option ℚ :=
  let sgncs : ℚ × List Char :=
    match cs with
    | '+' :: r => (1, r)
    | '-' :: r => (-1, r)
    | r => (1, r)
  let intPart := takeDigits sgncs.2
  let fracPart : Option (List Char) × List Char :=
    match intPart.2 with
    | '.' :: r =>
        let fr := takeDigits r
        (some fr.1, fr.2)
    | r => (none, r)
  if intPart.1.isEmpty && (fracPart.1.getD []).isEmpty then none
  else
    let frac := fracPart.1.getD []
    let mant : ℚ :=
      (natOfDigits intPart.1 : ℚ) + (natOfDigits frac : ℚ) / ((10 : ℚ) ^ frac.length)
    match fracPart.2 with
    | [] => some (sgncs.1 * mant)
    | e :: r =>
        if e = 'e' || e = 'E' then
          let esgn : Bool × List Char :=
            match r with
            | '+' :: r2 => (true, r2)
            | '-' :: r2 => (false, r2)
            | r2 => (true, r2)
          let eds := takeDigits esgn.2
          if eds.1.isEmpty || !eds.2.isEmpty then none
          else
            let ev : ℚ := (10 : ℚ) ^ natOfDigits eds.1
            some (sgncs.1 * mant * (if esgn.1 then ev else 1 / ev))
        else none

/-- `[float(value) for value in ...]`: left-to-right conversion, the first
malformed token raising the `ValueError` that names it. -/
def parseTokens : List (List Char) → Except String (List ℚ)
  | [] => .ok []
  | t :: rest =>
      match pyFloat? t with
      | some q => (parseTokens rest).map (fun l => q :: l)
      | none => .error ("ValueError: could not convert string to float: " ++ String.mk t)

/-- The state of the Python `points` list for one command: a flat list of
scalars, an `(n, 2)`-shaped list of pairs (after the `zip`), or the
inhomogeneous mix produced when a relative command appends the previous
vertex's two scalars to a list of pairs (which `np.array` later rejects). -/
inductive NpPoints where
  | flat (l : List ℚ)
  | pairs (l : List (ℚ × ℚ))
  | mixed (ps : List (ℚ × ℚ)) (extra : List ℚ)
  deriving DecidableEq, Repr

/-- `points[::2]` (and, applied to the tail, `points[1::2]`). -/
def everyOther {α : Type} : List α → List α
  | [] => []
  | [a] => [a]
  | a :: _ :: rest => a :: everyOther rest

/-- `list(zip(points[::2], points[1::2]))`: Python `zip` stops at the
shorter sequence, silently dropping an odd trailing coordinate. -/
def zipPairsTrunc (l : List ℚ) : List (ℚ × ℚ) :=
  (everyOther l).zip (everyOther l.tail)

/-- The parser's command table, keyed by the upper-cased letter:
`M`, `L`, `Q` (two CURVE3 codes), `C` (three CURVE4 codes), `Z`. -/
def commands_codes (cmd : Char) : Option (List PathCode) :=
  if cmd = 'M' then some [.moveto]
  else if cmd = 'L' then some [.lineto]
  else if cmd = 'Q' then some [.curve3, .curve3]
  else if cmd = 'C' then some [.curve4, .curve4, .curve4]
  else if cmd = 'Z' then some [.closepoly]
  else none

/-- `np.reshape` of an even-length flat array into shape `(-1, 2)`. -/
def chunkPairs : List ℚ → List (ℚ × ℚ)
  | [] => []
  | [_] => []
  | a :: b :: rest => (a, b) :: chunkPairs rest

/-- Stage 1 (svg_to_path.py lines 44-49): tokenize and float-convert the
value text (`ValueError` naming the first bad token), pair the numbers up
with the truncating `zip` when more than 2, or `[(0., 0.)]` when the text
is empty. -/
def cmdPoints (vals : List Char) : Except String NpPoints :=
  if vals.isEmpty then .ok (.pairs [(0, 0)])
  else
    match parseTokens (filteredTokens vals) with
    | .error err => .error err
    | .ok nums =>
        .ok (if 2 < nums.length then .pairs (zipPairsTrunc nums) else .flat nums)

/-- Stage 2 (lines 51-52): a relative command (lowercase, except `m`)
appends the previous command's last vertex (`IndexError` when there is
none); appended onto a list of pairs this creates the inhomogeneous
mix. -/
def cmdRelative (verts : List (List (ℚ × ℚ))) (cmd : Char) (pts : NpPoints) :
    Except String NpPoints :=
  if cmd.isLower && cmd ≠ 'm' then
    match verts.getLast? with
    | none => .error "IndexError: list index out of range"
    | some lastArr =>
        match lastArr.getLast? with
        | none => .error "IndexError: index -1 is out of bounds for axis 0 with size 0"
        | some lastVertex =>
            match pts with
            | .flat l => .ok (.flat (l ++ [lastVertex.1, lastVertex.2]))
            | .pairs l => .ok (.mixed l [lastVertex.1, lastVertex.2])
            | .mixed ps ex => .ok (.mixed ps (ex ++ [lastVertex.1, lastVertex.2]))
  else .ok pts

/-- Stage 4 (line 54-59): `np.reshape(np.array(points), (-1, 2))` - the
inhomogeneous mix fails in `np.array`, an odd-size flat list fails in the
reshape. -/
def cmdReshape (pts : NpPoints) : Except String (List (ℚ × ℚ)) :=
  match pts with
  | .pairs l => .ok l
  | .flat l =>
      if l.length % 2 = 0 then .ok (chunkPairs l)
      else
        .error ("ValueError: cannot reshape array of size "
          ++ toString l.length ++ " into shape (2)")
  | .mixed _ _ => .error "ValueError: setting an array element with a sequence"

/-- One iteration of the parser loop (svg_to_path.py lines 41-59), in
source order: points (stage 1), relative append (stage 2), then
`codes.extend(commands[cmd.upper()])` - `KeyError` for an unknown letter
(stage 3) - and finally the reshape/append of stage 4. -/
def processCmd (verts : List (List (ℚ × ℚ))) (codes : List PathCode)
    (cmd : Char) (vals : List Char) :
    Except String (List (List (ℚ × ℚ)) × List PathCode) :=
  match cmdPoints vals with
  | .error err => .error err
  | .ok pts =>
      match cmdRelative verts cmd pts with
      | .error err => .error err
      | .ok pts2 =>
          match commands_codes cmd.toUpper with
          | none => .error ("KeyError: " ++ String.mk [cmd.toUpper])
          | some cs =>
              match cmdReshape pts2 with
              | .error err => .error err
              | .ok arr => .ok (verts ++ [arr], codes ++ cs)

/-- The parser's `for cmd, values in zip(...)` loop over the command
pairs, threading the growing `vertices` and `codes`. -/
def runCmds : List (Char × List Char) → List (List (ℚ × ℚ)) → List PathCode →
    Except String (List (List (ℚ × ℚ)) × List PathCode)
  | [], verts, codes => .ok (verts, codes)
  | (cmd, vals) :: rest, verts, codes =>
      match processCmd verts codes cmd vals with
      | .error err => .error err
      | .ok s => runCmds rest s.1 s.2

/-- `svg_path_parse` (svg_to_path.py lines 24-62): the full parse of one
path string, ending with `np.concatenate(vertices)` (a `ValueError` when
no command produced an array) and the matplotlib `Path(vertices, codes)`
length check. -/
def svg_path_parse (svg_path : String) :
    Except String (List (ℚ × ℚ) × List PathCode) :=
  match runCmds (splitCmds (pyReplaceSpace svg_path)) [] [] with
  | .error err => .error err
  | .ok (vertices, codes) =>
      if vertices.isEmpty then
        .error "ValueError: need at least one array to concatenate"
      else
        let vertices_array := vertices.flatten
        if codes.length ≠ vertices_array.length then
          .error "ValueError: codes must be a 1D list or array with the same length of vertices"
        else
          .ok (vertices_array, codes)

/-- A command entry is well-formed in the sense of claim C8: its
(upper-cased) letter is in the command table, and every one of its
nonempty tokens converts to a float. -/
def cmdEntryOk (cv : Char × List Char) : Bool :=
  (commands_codes cv.1.toUpper).isSome &&
  (filteredTokens cv.2).all (fun t => (pyFloat? t).isSome)

/-! ## Specification-side definitions (worded from spec.md, for
refinement statements) -/

/-- Span derivation as the spec words it: the ordered sequence of
`abs(node[i].x - node[i-1].x)` over consecutive nodes in list order. -/
def spans_spec (nodes : List Node) : List ℚ :=
  (nodes.zip nodes.tail).map (fun p => |p.2.x - p.1.x|)

/-- Node coercion as claim C10 words it: numeric entries become Nodes
labelled with their numeric value, Node entries stay, and entries that are
neither (a plain string) are omitted. -/
def node_coercion_spec : NodeInput → Option Node
  | .num q => some ⟨q, Label.ofText (toString q)⟩
  | .node n => some n
  | .str _ => none

/-- Classification as the specification words it: moment flag set gives
POINT_MOMENT; else a present end_location gives DISTRIBUTED; else POINT. -/
def classify_spec (load : Load) : String :=
  if load.moment then "POINT_MOMENT"
  else if load.end_location.isSome then "DISTRIBUTED"
  else "POINT"

/-- C7: load classification follows the fixed precedence (moment flag
first, even when an end_location is also present; then end_location
presence; else point), and, being a function of the load value alone,
repeated calls on an unmutated load return identical results. -/
theorem C7_classification_precedence_and_pure (load : Load) :
    (load.moment = true → classify_load load = "POINT_MOMENT") ∧
    (load.moment = false → (∃ e, load.end_location = some e) →
      classify_load load = "DISTRIBUTED") ∧
    (load.moment = false → load.end_location = none →
      classify_load load = "POINT") ∧
    classify_load load = classify_spec load := by
  refine ⟨fun hm => by simp [classify_load, hm], fun hm he => ?_,
    fun hm he => by simp [classify_load, hm, he], rfl⟩
  obtain ⟨e, hee⟩ := he
  simp [classify_load, hm, hee]

/-- C7 witness: a point moment that also carries an end_location is still
classified POINT_MOMENT, and a plain distributed load is DISTRIBUTED. -/
theorem C7_classification_witness :
    classify_load ⟨45, .num 0, some (.num 10), none, true, 0, {}⟩ = "POINT_MOMENT" ∧
    classify_load ⟨45, .num 0, some (.num 10), none, false, 0, {}⟩ = "DISTRIBUTED" :=
  ⟨(C7_classification_precedence_and_pure _).1 rfl,
   (C7_classification_precedence_and_pure _).2.1 rfl ⟨.num 10, rfl⟩⟩

/-- C3: `max_load_magnitudes` crashes with an `AttributeError` on any load
whose `end_magnitude` is present, because the source reads the nonexistent
field `load.start_magnitude`; the claimed max-of-`|magnitude|`-and-
`|end_magnitude|` rule is never computed.  For loads without an
`end_magnitude` the per-category maximum of `|magnitude|` is computed as
claimed, and the empty categories keep their initial maximum of 0. -/
theorem C3_max_load_magnitudes_attribute_error :
    max_load_magnitudes [⟨5, .num 0, some (.num 10), some 7, false, 0, {}⟩]
      = .error "AttributeError: Load object has no attribute start_magnitude" ∧
    max_load_magnitudes
      [⟨5, .num 0, none, none, false, 0, {}⟩, ⟨-8, .num 2, none, none, false, 0, {}⟩]
      = .ok ⟨8, 0, 0⟩ ∧
    max_load_magnitudes ([] : List Load) = .ok ⟨0, 0, 0⟩ := by
  refine ⟨rfl, ?_, rfl⟩
  simp [max_load_magnitudes, classify_load, MaxMags.getKey?, MaxMags.setKey,
    List.foldlM, Except.bind, bind, pure, Except.pure]
  norm_num

/-- C2: on a POINT_MOMENT load `get_scaled_magnitude` does not scale by the
point rule: it stops with Python's `UnboundLocalError`, since the
`POINT_MOMENT` branch reads `scaling_factor` before any assignment.  A
POINT load is scaled to `max_depth * |magnitude| / category_max` as
claimed. -/
theorem C2_point_moment_scaling_unbound_local :
    get_scaled_magnitude ⟨5, .num 0, none, none, true, 0, {}⟩ ⟨0, 0, 5⟩ 1
      = .error "UnboundLocalError: local variable scaling_factor referenced before assignment" ∧
    get_scaled_magnitude ⟨5, .num 0, none, none, false, 0, {}⟩ ⟨5, 0, 0⟩ 1
      = .ok (.single 1) := by
  constructor
  · rfl
  · simp [get_scaled_magnitude, classify_load, MaxMags.getKey?]

/-- C1 counterexample: a distributed load with magnitude 5 and no
end_magnitude, scaled against a category maximum of 5 with max_depth 2,
yields the single depth 2 - not the claimed pair (2, 2). -/
theorem C1_uniform_distributed_counterexample :
    get_scaled_magnitude ⟨5, .num 0, some (.num 10), none, false, 0, {}⟩ ⟨0, 5, 0⟩ 2
      = .ok (.single 2) ∧
    get_scaled_magnitude ⟨5, .num 0, some (.num 10), none, false, 0, {}⟩ ⟨0, 5, 0⟩ 2
      ≠ .ok (.pair 2 2) := by
  have h : get_scaled_magnitude ⟨5, .num 0, some (.num 10), none, false, 0, {}⟩ ⟨0, 5, 0⟩ 2
      = .ok (.single 2) := by
    simp [get_scaled_magnitude, classify_load, MaxMags.getKey?]
  exact ⟨h, by rw [h]; simp⟩

/-- C1 (amended): for a DISTRIBUTED load and a positive category maximum,
`get_scaled_magnitude` returns the pair
(max_depth * |magnitude| / category_max, max_depth * |end_magnitude| /
category_max) when `end_magnitude` is present, but when `end_magnitude` is
absent it returns only the single start depth (the plotting caller later
expands that scalar to an equal start/end pair). -/
theorem C1_distributed_scaling_amended (load : Load) (mags : MaxMags) (max_depth : ℚ)
    (hc : classify_load load = "DISTRIBUTED") (hmx : 0 < mags.distributed) :
    get_scaled_magnitude load mags max_depth =
      .ok (match load.end_magnitude with
        | some em => .pair (max_depth * |load.magnitude| / mags.distributed)
            (max_depth * |em| / mags.distributed)
        | none => .single (max_depth * |load.magnitude| / mags.distributed)) := by
  have hmx0 : mags.distributed ≠ 0 := ne_of_gt hmx
  have h1 : ∀ v : ℚ, abs (abs v / mags.distributed) * max_depth
      = max_depth * abs v / mags.distributed := by
    intro v
    rw [abs_div, abs_abs, abs_of_pos hmx]
    ring
  unfold get_scaled_magnitude
  rw [hc]
  cases hem : load.end_magnitude with
  | none => simp [MaxMags.getKey?, hem, hmx0, h1]
  | some em => simp [MaxMags.getKey?, hem, hmx0, h1]

/-- C1 amended witness: a trapezoidal load (magnitude 5, end_magnitude 7)
against category maximum 5 and max_depth 2 scales to the pair
(2 * |5| / 5, 2 * |7| / 5). -/
theorem C1_distributed_scaling_amended_witness :
    0 < (5:ℚ) ∧
    get_scaled_magnitude ⟨5, .num 0, some (.num 10), some 7, false, 0, {}⟩ ⟨0, 5, 0⟩ 2
      = .ok (.pair (2 * |(5:ℚ)| / 5) (2 * |(7:ℚ)| / 5)) :=
  ⟨by norm_num,
   C1_distributed_scaling_amended ⟨5, .num 0, some (.num 10), some 7, false, 0, {}⟩
     ⟨0, 5, 0⟩ 2 rfl (by norm_num)⟩

/-! ## Theorems about beam construction and geometry -/

/-- The `get_spans` loop computes exactly the consecutive list-order
differences. -/
theorem get_spans_aux_eq_spans_spec (n : Node) (rest : List Node) :
    get_spans_aux n.x rest = spans_spec (n :: rest) := by
  induction rest generalizing n with
  | nil => rfl
  | cons m rs ih =>
      simp only [get_spans_aux]
      rw [ih m]
      rfl

/-- C6: for every beam, `get_spans` returns the ordered sequence of
`abs(node[i].x - node[i-1].x)` over consecutive nodes in list order,
`length` is the sum of the spans, beams with fewer than two nodes have an
empty span list and length 0, and the concrete beam with nodes at
x = 0, 3, 3, 10 has spans [3, 0, 7] and length 10. -/
theorem C6_spans_and_length (b : Beam) :
    b.get_spans = spans_spec b.nodes ∧
    b.length = b.get_spans.sum ∧
    (b.nodes.length < 2 → b.get_spans = [] ∧ b.length = 0) ∧
    (Beam.get_spans ⟨[mkNode 0, mkNode 3, mkNode 3, mkNode 10], [], none, none, 0, []⟩
        = [3, 0, 7] ∧
      Beam.length ⟨[mkNode 0, mkNode 3, mkNode 3, mkNode 10], [], none, none, 0, []⟩
        = 10) := by
  refine ⟨?_, rfl, ?_, ?_, ?_⟩
  · match hb : b.nodes with
    | [] => simp [Beam.get_spans, hb, spans_spec]
    | n :: rest => simp [Beam.get_spans, hb, get_spans_aux_eq_spans_spec]
  · intro hlen
    match hb : b.nodes with
    | [] => simp [Beam.length, Beam.get_spans, hb]
    | [n] => simp [Beam.length, Beam.get_spans, hb, get_spans_aux]
    | n :: m :: rest => rw [hb] at hlen; simp at hlen; omega
  · norm_num [Beam.get_spans, get_spans_aux, mkNode]
  · norm_num [Beam.length, Beam.get_spans, get_spans_aux, mkNode]

/-- C6 witness: a single-node beam has no spans and length 0. -/
theorem C6_spans_and_length_witness :
    Beam.get_spans ⟨[mkNode 5], [], none, none, 0, []⟩ = [] ∧
    Beam.length ⟨[mkNode 5], [], none, none, 0, []⟩ = 0 :=
  (C6_spans_and_length ⟨[mkNode 5], [], none, none, 0, []⟩).2.2.1 (by norm_num)

/-- C5: a Support located by the label string "A" is never resolved to the
node that carries label "A" (Python compares the node's `Label` dataclass
against the `Support` object itself, which is always `False`), and the
failure surfaces as `StopIteration` from `next`, not as the
unresolved-reference `ValueError` of `Beam.__post_init__` (which is
unreachable).  The same happens for a dimension entry given as a label
string.  Construction does fail at construction time - but for every
string location, resolvable or not, and with the wrong error. -/
theorem C5_label_lookup_raises_stop_iteration :
    beam_post_init ⟨[.node (mkNodeStr 0 "A")], some [⟨.str "A", 2, {}⟩],
        none, none, none, some []⟩
      = .error "StopIteration" ∧
    beam_post_init ⟨[.node (mkNodeStr 0 "A")], some [], none, none, none,
        some [.str "A"]⟩
      = .error "StopIteration" := ⟨rfl, rfl⟩

/-- The node-coercion loop is exactly a `filterMap` of the per-entry
coercion. -/
theorem processNodes_eq_filterMap (inputs : List NodeInput) :
    processNodes inputs = inputs.filterMap node_coercion_spec := by
  induction inputs with
  | nil => rfl
  | cons i rest ih => cases i <;> simp [processNodes, node_coercion_spec, ih]

/-- C10: after construction (with empty support/dimension lists, which
resolve trivially) the beam's node list is the input list with numbers
coerced to labelled Nodes, Node entries kept, and any other entry (a plain
string) silently omitted - so the constructed list can be shorter than the
input, as the singleton string input shows. -/
theorem C10_node_list_coercion (inputs : List NodeInput) (loads : Option (List Load))
    (joints : Option (List Joint)) (depth : Option ℚ) :
    beam_post_init ⟨inputs, some [], loads, joints, depth, some []⟩
      = .ok ⟨inputs.filterMap node_coercion_spec, [], loads, joints, depth.getD 0, []⟩ ∧
    ([NodeInput.str "A"].filterMap node_coercion_spec).length
      < [NodeInput.str "A"].length := by
  constructor
  · simp only [beam_post_init, List.mapM_nil, processNodes_eq_filterMap]
    cases depth <;> rfl
  · simp [node_coercion_spec]

/-! ## Theorems about anchors and the transform composer -/

/-- C4: anchor lookup does not succeed for every valid two-token anchor:
`"top left"` (given by the source docstring itself as an example) stops in
the `left` arm of the `if/elif` chain, leaves `y` unassigned, and raises
`UnboundLocalError` instead of returning `(xmin, ymax)`.  Two tokens of
the same axis (`"top bottom"`) or two unrecognized tokens also die with
`UnboundLocalError`, not with the InvalidAnchor `ValueError` - only the
token-count check (`"diagonal"`) raises the `ValueError` naming the
string.  Center-bearing anchors (`"center right"`) do return the
bounding-box point. -/
theorem C4_anchor_lookup_unbound_local :
    get_anchor_point ⟨[(0, 0), (2, 1)], Affine.ident⟩ "top left"
      = .error "UnboundLocalError: local variable y referenced before assignment" ∧
    get_anchor_point ⟨[(0, 0), (2, 1)], Affine.ident⟩ "top bottom"
      = .error "UnboundLocalError: local variable x referenced before assignment" ∧
    get_anchor_point ⟨[(0, 0), (2, 1)], Affine.ident⟩ "center right"
      = .ok (2, 1 / 2) ∧
    get_anchor_point ⟨[(0, 0), (2, 1)], Affine.ident⟩ "diagonal"
      = .error ("ValueError: location must be a string containing two words, separated by a space, describing a location relative to a bounding box; "
          ++ "diagonal" ++ " was passed instead.") := by
  refine ⟨?_, ?_, ?_, ?_⟩
  · simp [get_anchor_point,
      show (pySplitWs "top left").length = 2 by decide,
      show str_in_chars "center" (pyToLower "top left") = false by decide,
      show str_in_chars "right" (pyToLower "top left") = false by decide,
      show str_in_chars "left" (pyToLower "top left") = true by decide]
  · simp [get_anchor_point,
      show (pySplitWs "top bottom").length = 2 by decide,
      show str_in_chars "center" (pyToLower "top bottom") = false by decide,
      show str_in_chars "right" (pyToLower "top bottom") = false by decide,
      show str_in_chars "left" (pyToLower "top bottom") = false by decide,
      show str_in_chars "top" (pyToLower "top bottom") = true by decide]
  · simp [get_anchor_point, PathPatch.get_extents, Affine.apply, Affine.ident,
      show (pySplitWs "center right").length = 2 by decide,
      show str_in_chars "center" (pyToLower "center right") = true by decide,
      show str_in_chars "right" (pyToLower "center right") = true by decide]
  · simp [get_anchor_point,
      show (pySplitWs "diagonal").length = 1 by decide]

/-- Shared helper: whatever the anchor string and whether or not the
anchor lookup succeeds, `get_svg_translation_transform` leaves the passed
patch with its transform set to the vertical flip. -/
theorem get_svg_translation_transform_snd (transData : Affine) (p : PathPatch)
    (target : ℚ × ℚ) (anchor : String) (k : ℚ) :
    (get_svg_translation_transform transData p target anchor k).2
      = { p with transform := get_svg_flip_transform } := by
  unfold get_svg_translation_transform
  cases h : get_anchor_point { p with transform := get_svg_flip_transform } anchor with
  | error e => simp [h]
  | ok a => cases a; simp [h]

/-- C9 counterexample: composing a placement transform does NOT leave the
passed-in outline unchanged - starting from the identity patch transform,
the call flips it. -/
theorem C9_compose_transform_mutates_patch :
    (get_svg_translation_transform Affine.ident ⟨[(0, 0), (2, 2)], Affine.ident⟩
        (3, 4) "center center" 2).2
      ≠ ⟨[(0, 0), (2, 2)], Affine.ident⟩ := by
  rw [get_svg_translation_transform_snd]
  intro h
  have hd := congrArg (fun p => p.transform.d) h
  norm_num [get_svg_flip_transform, Affine.ident] at hd

/-- C9 (amended): parse, classify, scale and span-derivation are pure
functions of their inputs (they are plain functions of immutable values in
this embedding), and the transform composer is deterministic - but it does
mutate its argument: `get_svg_translation_transform` installs the vertical
flip on the passed outline (so that the anchor is computed on the flipped
bounding box) and leaves it there; the vertices are untouched and the
transform field is the only observable change. -/
theorem C9_compose_transform_frame_effect (transData : Affine) (p : PathPatch)
    (target : ℚ × ℚ) (anchor : String) (k : ℚ) :
    (get_svg_translation_transform transData p target anchor k).2.vertices
        = p.vertices ∧
    (get_svg_translation_transform transData p target anchor k).2.transform
        = get_svg_flip_transform ∧
    get_svg_translation_transform transData p target anchor k
        = get_svg_translation_transform transData p target anchor k := by
  rw [get_svg_translation_transform_snd]
  exact ⟨rfl, rfl, rfl⟩

/-! ## Theorems about the SVG path parser -/

/-- A successful float-conversion pass means every token converts. -/
theorem parseTokens_ok_forall (toks : List (List Char)) (nums : List ℚ)
    (h : parseTokens toks = .ok nums) : ∀ t ∈ toks, (pyFloat? t).isSome := by
  induction toks generalizing nums with
  | nil => intro t ht; cases ht
  | cons a rest ih =>
      intro t ht
      unfold parseTokens at h
      cases hf : pyFloat? a with
      | none => rw [hf] at h; exact absurd h (by simp)
      | some q =>
          rw [hf] at h
          cases hr : parseTokens rest with
          | error e => rw [hr] at h; exact absurd h (by simp [Except.map])
          | ok l =>
              cases ht with
              | head => simp [hf]
              | tail _ ht2 => exact ih l hr t ht2

/-- A successful points stage means every token of the command
converted. -/
theorem cmdPoints_ok_tokens (vals : List Char) (pts : NpPoints)
    (h : cmdPoints vals = .ok pts) :
    ∀ t ∈ filteredTokens vals, (pyFloat? t).isSome := by
  unfold cmdPoints at h
  by_cases hv : vals.isEmpty
  · have hnil : vals = [] := by
      cases vals with
      | nil => rfl
      | cons c r => simp [List.isEmpty] at hv
    subst hnil
    intro t ht
    simp [filteredTokens, splitSepsAux] at ht
  · rw [if_neg hv] at h
    cases hp : parseTokens (filteredTokens vals) with
    | error e => rw [hp] at h; exact absurd h (by simp)
    | ok nums => exact parseTokens_ok_forall _ _ hp

/-- A command the loop processed successfully is well-formed. -/
theorem processCmd_ok_valid (verts : List (List (ℚ × ℚ))) (codes : List PathCode)
    (cmd : Char) (vals : List Char) (res : List (List (ℚ × ℚ)) × List PathCode)
    (h : processCmd verts codes cmd vals = .ok res) :
    cmdEntryOk (cmd, vals) = true := by
  unfold processCmd at h
  cases h1 : cmdPoints vals with
  | error e => rw [h1] at h; exact absurd h (by simp)
  | ok pts =>
      simp only [h1] at h
      cases h2 : cmdRelative verts cmd pts with
      | error e => simp only [h2] at h; exact absurd h (by simp)
      | ok pts2 =>
          simp only [h2] at h
          cases h3 : commands_codes cmd.toUpper with
          | none => simp only [h3] at h; exact absurd h (by simp)
          | some cs =>
              simp only [cmdEntryOk, Bool.and_eq_true, List.all_eq_true]
              exact ⟨by rw [h3]; rfl,
                fun t ht => by simpa using cmdPoints_ok_tokens _ _ h1 t ht⟩

/-- A successful run of the whole loop means every command entry is
well-formed. -/
theorem runCmds_ok_all (cmds : List (Char × List Char))
    (verts : List (List (ℚ × ℚ))) (codes : List PathCode)
    (res : List (List (ℚ × ℚ)) × List PathCode)
    (h : runCmds cmds verts codes = .ok res) : cmds.all cmdEntryOk = true := by
  induction cmds generalizing verts codes with
  | nil => rfl
  | cons cv rest ih =>
      obtain ⟨c, v⟩ := cv
      unfold runCmds at h
      cases hp : processCmd verts codes c v with
      | error e => rw [hp] at h; exact absurd h (by simp)
      | ok s =>
          simp only [hp] at h
          simp only [List.all_cons, Bool.and_eq_true]
          exact ⟨processCmd_ok_valid _ _ _ _ _ hp, ih s.1 s.2 h⟩

/-- C8 counterexample: a command with an odd coordinate count greater
than 2 is not reported as a parse error - `"M 1 2 3"` parses successfully
and the trailing `3` is silently discarded by the
`zip(points[::2], points[1::2])` pairing. -/
theorem C8_odd_coordinate_count_counterexample :
    svg_path_parse "M 1 2 3" = .ok ([(1, 2)], [.moveto]) := by
  simp [svg_path_parse, runCmds, processCmd, cmdPoints, cmdRelative, cmdReshape,
    parseTokens, filteredTokens, splitSepsAux, splitCmds, splitCmdsAux,
    pyReplaceSpace, pyFloat?, takeDigits, natOfDigits, zipPairsTrunc, everyOther,
    commands_codes, chunkPairs, isAsciiLetter, Except.map]

/-- C8 (amended): a parse can only succeed when every command letter is
recognized and every token float-converts - so a malformed numeric token
or an unrecognized command letter is always reported as an error, and the
concrete conjuncts show the error names the offending token (the
`ValueError` names the bad token, the `KeyError` the upper-cased letter;
a lone odd coordinate fails in the numpy reshape, whose message reports
the array size rather than the token).  But an odd coordinate count
greater than 2 is NOT an error: the last conjunct shows `"Q 0 0 4 4 7"`
succeeding with the trailing `7` silently dropped. -/
theorem C8_parse_error_reporting_amended :
    (∀ (s : String) (r : List (ℚ × ℚ) × List PathCode),
      svg_path_parse s = .ok r →
        (splitCmds (pyReplaceSpace s)).all cmdEntryOk = true) ∧
    svg_path_parse "M 1 2 1..2"
      = .error "ValueError: could not convert string to float: 1..2" ∧
    svg_path_parse "M 1 2 P 3 4" = .error "KeyError: P" ∧
    svg_path_parse "M 1"
      = .error "ValueError: cannot reshape array of size 1 into shape (2)" ∧
    svg_path_parse "Q 0 0 4 4 7" = .ok ([(0, 0), (4, 4)], [.curve3, .curve3]) := by
  refine ⟨?_, by decide, by decide, by decide, ?_⟩
  · intro s r h
    unfold svg_path_parse at h
    cases hr : runCmds (splitCmds (pyReplaceSpace s)) [] [] with
    | error e => rw [hr] at h; exact absurd h (by simp)
    | ok vc => exact runCmds_ok_all _ _ _ _ hr
  · simp [svg_path_parse, runCmds, processCmd, cmdPoints, cmdRelative, cmdReshape,
      parseTokens, filteredTokens, splitSepsAux, splitCmds, splitCmdsAux,
      pyReplaceSpace, pyFloat?, takeDigits, natOfDigits, zipPairsTrunc, everyOther,
      commands_codes, chunkPairs, isAsciiLetter, Except.map]

/-- C8 amended witness: the parse of `"Q 0 0 4 4 7"` succeeds, so by the
amended theorem all of its command entries are well-formed. -/
theorem C8_parse_error_reporting_amended_witness :
    (splitCmds (pyReplaceSpace "Q 0 0 4 4 7")).all cmdEntryOk = true :=
  C8_parse_error_reporting_amended.1 "Q 0 0 4 4 7"
    ([(0, 0), (4, 4)], [.curve3, .curve3])
    (by simp [svg_path_parse, runCmds, processCmd, cmdPoints, cmdRelative,
      cmdReshape, parseTokens, filteredTokens, splitSepsAux, splitCmds,
      splitCmdsAux, pyReplaceSpace, pyFloat?, takeDigits, natOfDigits,
      zipPairsTrunc, everyOther, commands_codes, chunkPairs, isAsciiLetter,
      Except.map])

end Beamz9000
